import Mathlib

/-!
Shallow embedding of `src/subhunter.py` (SubHunter): the engagement
scheduling and filtering engine.  Python strings are modelled as Lean
`String` (a structure over `List Char`), python `set` as `Finset String`,
python times-of-day as seconds-of-day (`Nat`), machine integers as `Int`
(python ints are unbounded so no modular wrap is needed), and the external
network world (search pages, action-call results) as explicit environment
values threaded through the loop.  Randomized sleeps are modelled as
emitted events carrying the range bounds the code passes to
`random.randint`; the drawn value itself is irrelevant to control flow.
-/

namespace SubHunter

/-- Python value as it matters to `ok_author`: `vNone` is `None` (or an
absent attribute), `vInt n` an int (or bool), `vNumStr n` a non-empty
numeric string (truthy, `int()` succeeds), `vOther b` any other value with
truthiness `b` on which `int()` raises. -/
inductive PyVal where
  | vNone
  | vInt (n : Int)
  | vNumStr (n : Int)
  | vOther (truthy : Bool)
deriving DecidableEq, Repr

/-- Python truthiness of a `PyVal`. -/
def PyVal.truthy : PyVal → Bool
  | .vNone => false
  | .vInt n => n != 0
  | .vNumStr _ => true
  | .vOther b => b

/-- Python `a or b`. -/
def pyOr (a b : PyVal) : PyVal := if a.truthy then a else b

/-- Python `int(v)`, `none` when it raises. -/
def pyToInt : PyVal → Option Int
  | .vInt n => some n
  | .vNumStr n => some n
  | _ => none

/-- Python `s.strip()` (restricted to ASCII whitespace). -/
def pyStrip (s : String) : String :=
  ⟨((s.data.dropWhile Char.isWhitespace).reverse.dropWhile Char.isWhitespace).reverse⟩

/-- Python `s.lower()` (ASCII case folding). -/
def pyLower (s : String) : String := ⟨s.data.map Char.toLower⟩

/-- Python `s.replace("\n", " ")`. -/
def pyReplaceNl (s : String) : String :=
  ⟨s.data.map fun c => if c = '\n' then ' ' else c⟩

/-- Python `s.startswith(pre)`. -/
def pyStartsWith (s pre : String) : Bool := List.isPrefixOf pre.data s.data

/-- Python `needle in hay` for strings (substring containment). -/
def pySubstr (needle hay : List Char) : Bool :=
  match hay with
  | [] => needle.isEmpty
  | _ :: t => List.isPrefixOf needle hay || pySubstr needle t

/-- Source `is_rt_text`: stripped text starts with a repost or quote marker. -/
def is_rt_text (text : String) : Bool :=
  let s := pyStrip text
  pyStartsWith s "RT @" || pyStartsWith s "QT @"

/-- Source `is_reply_text`: stripped text starts with a reply marker. -/
def is_reply_text (text : String) : Bool :=
  pyStartsWith (pyStrip text) "@"

/-- Source `ok_lang`: falsy language passes, otherwise folded code must be allowed. -/
def ok_lang (lang : Option String) (allowed : List String) : Bool :=
  match lang with
  | none => true
  | some l => if l = "" then true else allowed.contains (pyLower l)

/-- Outcome of resolving a candidate's `created_at` field against the current
UTC instant: `absent` for a falsy field, `unparsable` when
`datetime.fromisoformat` raises, `age s` for a parsed timestamp whose
elapsed time against now is `s` seconds. -/
inductive Created where
  | absent
  | unparsable
  | age (seconds : Int)
deriving DecidableEq, Repr

/-- Source `ok_age`: absent or unparsable timestamps pass (fail-open);
otherwise the elapsed time must not exceed `max_age_hours`. -/
def ok_age (c : Created) (max_age_hours : Int) : Bool :=
  match c with
  | .absent => true
  | .unparsable => true
  | .age s => decide (s ≤ max_age_hours * 3600)

/-- Author record: the fields of the nested user object that the core reads. -/
structure Author where
  followers_count : PyVal
  followers : PyVal
  id : String
  id_str : String
deriving DecidableEq, Repr

/-- Resolution of the author's followers count exactly as `ok_author` does it:
`getattr(user, "followers_count", None) or getattr(user, "followers", None)`
followed by `int(...)`; `none` when the conversion raises. -/
def resolveFollowers (u : Author) : Option Int :=
  pyToInt (pyOr u.followers_count u.followers)

/-- Source `ok_author`: an unconvertible followers value passes (fail-open);
a resolved integer must lie within `[min_f, max_f]` inclusive. -/
def ok_author (u : Author) (min_f max_f : Int) : Bool :=
  match resolveFollowers u with
  | none => true
  | some f => decide (min_f ≤ f) && decide (f ≤ max_f)

/-- Source `ok_keywords`: the folded text must contain no blacklisted substring. -/
def ok_keywords (text : String) (blacklist : List String) : Bool :=
  let low := pyLower text
  !(blacklist.any fun bad => pySubstr bad.data low.data)

/-- Window test used by `within_blocks` for one `(start, end)` pair, the
inclusive rule with midnight wraparound: for `start ≤ end` inside means
`start ≤ t ≤ end`; for `start > end` inside means `t ≥ start` or `t ≤ end`.
Times of day are seconds since midnight. -/
def insideWindow (w : Nat × Nat) (t : Nat) : Bool :=
  if w.1 ≤ w.2 then decide (w.1 ≤ t) && decide (t ≤ w.2)
  else decide (t ≥ w.1) || decide (t ≤ w.2)

/-- Source `within_blocks`, with `t` the local time of day in seconds:
night-off (when configured) is checked first and wins; an empty block list
means always eligible; otherwise some block must contain `t`. -/
def within_blocks (t : Nat) (blocks : List (Nat × Nat)) (night_off : Option (Nat × Nat)) : Bool :=
  match night_off with
  | some w =>
    if insideWindow w t then false
    else if blocks.isEmpty then true
    else blocks.any fun b => insideWindow b t
  | none =>
    if blocks.isEmpty then true
    else blocks.any fun b => insideWindow b t

/-- Seconds-of-day for an `HH:MM` time. -/
def hm (h m : Nat) : Nat := h * 3600 + m * 60

/-- Settings fields the core loop reads (configuration is resolved once per
process by the excluded config loader). -/
structure Settings where
  min_followers : Int
  max_followers : Int
  languages : List String
  max_age_hours : Int
  exclude_keywords : List String
  dry_run : Bool
  do_like : Bool
  do_follow : Bool
  like_per_day : Int
  follow_per_day : Int
  like_interval : Int × Int
  follow_interval : Int × Int
  micro_break_after : Int
  micro_break_seconds : Int × Int
  sessions_enabled : Bool
  session_blocks : List (Nat × Nat)
  night_off : Option (Nat × Nat)
deriving Repr

/-- Candidate record: the fields of a fetched tweet that the core reads.
`id` is `none` when the attribute is absent or `None`; `full_text` likewise;
`text` defaults to the empty string as in `getattr(t, "text", "")`. -/
structure Tweet where
  id : Option String
  full_text : Option String
  text : String
  lang : Option String
  created_at : Created
  user : Option Author
deriving DecidableEq, Repr

/-- Identifier check of the loop head: `if not tid` collapses an absent id
and an empty string (both falsy) to `none`. -/
def tidOf (t : Tweet) : Option String :=
  match t.id with
  | none => none
  | some i => if i = "" then none else some i

/-- Text normalisation of the loop:
`(full_text or text or "").replace("\n", " ").strip()`. -/
def candText (t : Tweet) : String :=
  let raw := match t.full_text with
    | some ft => if ft = "" then t.text else ft
    | none => t.text
  pyStrip (pyReplaceNl raw)

/-- Result of one external action-client call, supplied by the environment:
success, a `TooManyRequests` signal, or any other exception. -/
inductive CallRes where
  | ok
  | rate
  | err
deriving DecidableEq, Repr

/-- Outcome tags of `act_like` / `act_follow` (the parenthesised suffix of the
returned string): `dry`, `ok`, `na` for a missing client entry point,
`rate`, `err`. -/
inductive Outcome where
  | ok
  | dry
  | na
  | rate
  | err
deriving DecidableEq, Repr

/-- Source `act_like` / `act_follow` shared shape: dry-run short-circuits
before any external call; a missing entry point reports `na`; otherwise the
external call's result is reported (the rate branch also sleeps 45 to 90
seconds before returning). `hasFn` says whether the client exposes an entry
point for this kind. -/
def act (dry hasFn : Bool) (r : CallRes) : Outcome :=
  if dry then .dry
  else if !hasFn then .na
  else match r with
    | .ok => .ok
    | .rate => .rate
    | .err => .err

/-- Per-candidate environment: client capabilities and what each external
call would return if made. -/
structure ActEnv where
  likeFn : Bool
  likeRes : CallRes
  followFn : Bool
  followRes : CallRes
deriving DecidableEq, Repr

/-- Mutable run state threaded through `gather_for_query`: the seen set and
the per-kind success counters of the `counts` dict. -/
structure LoopState where
  seen : Finset String
  likes : Nat
  follows : Nat
deriving DecidableEq

/-- Verdict of the loop head on one candidate: skipped for a falsy id,
skipped because the id is already seen, rejected by a filter, or accepted
(checks 2 to 7 cleared). -/
inductive Decision where
  | noId
  | seenSkip
  | rejected
  | accepted
deriving DecidableEq, Repr

/-- Observable step of the loop, for stating scheduling properties: each
sleep event carries the bounds passed to `random.randint`. -/
inductive Event where
  | cand (i : Option String) (d : Decision)
  | likeAttempt (o : Outcome)
  | followAttempt (o : Outcome)
  | cadence (lo hi : Int)
  | microBreak (lo hi : Int)
  | pageDelay
  | rateBackoff
  | pagAbort
deriving DecidableEq, Repr

/-- Filter checks 2 to 7 in source order: non-empty normalised text, no
repost/reply marker, keyword blacklist, language, age, author presence and
followers bounds. -/
def passesFilters (st : Settings) (t : Tweet) : Bool :=
  let text := candText t
  !(text = "" || is_rt_text text || is_reply_text text)
  && ok_keywords text st.exclude_keywords
  && ok_lang t.lang st.languages
  && ok_age t.created_at st.max_age_hours
  && (match t.user with
      | none => false
      | some u => ok_author u st.min_followers st.max_followers)

/-- Author id resolution for follow:
`str(getattr(user, "id", "") or getattr(user, "id_str", ""))`. -/
def uidOf (t : Tweet) : String :=
  match t.user with
  | none => ""
  | some u => if u.id = "" then u.id_str else u.id

/-- One iteration of the candidate loop body of `gather_for_query`
(source lines 318 to 364): id/seen check, filters, seen insertion, quota
computation, like dispatch, follow dispatch, micro-break check.  Returns the
updated state and the emitted events. -/
def processTweet (st : Settings) (env : ActEnv) (t : Tweet) (s : LoopState) :
    LoopState × List Event :=
  match tidOf t with
  | none => (s, [.cand t.id .noId])
  | some tid =>
    if tid ∈ s.seen then (s, [.cand t.id .seenSkip])
    else if !passesFilters st t then (s, [.cand t.id .rejected])
    else
      let s1 : LoopState := { s with seen := insert tid s.seen }
      let like_left : Int := st.like_per_day - s1.likes
      let follow_left : Int := st.follow_per_day - s1.follows
      let (s2, likeEvs) :=
        if st.do_like && decide (like_left > 0) then
          let o := act st.dry_run env.likeFn env.likeRes
          let s2 := if o = .ok then { s1 with likes := s1.likes + 1 } else s1
          (s2, [Event.likeAttempt o, Event.cadence st.like_interval.1 st.like_interval.2])
        else (s1, [])
      let (s3, followEvs) :=
        if st.do_follow && decide (follow_left > 0) then
          if uidOf t = "" then (s2, [])
          else
            let o := act st.dry_run env.followFn env.followRes
            let s3 := if o = .ok then { s2 with follows := s2.follows + 1 } else s2
            (s3, [Event.followAttempt o, Event.cadence st.follow_interval.1 st.follow_interval.2])
        else (s2, [])
      let total : Nat := s3.likes + s3.follows
      let breakEvs :=
        if decide (st.micro_break_after > 0) && decide (0 < total)
            && decide ((total : Int) % st.micro_break_after = 0) then
          [Event.microBreak st.micro_break_seconds.1 st.micro_break_seconds.2]
        else []
      (s3, Event.cand t.id .accepted :: likeEvs ++ followEvs ++ breakEvs)

/-- The `for t in tweets` loop over one page, each candidate paired with its
action environment. -/
def processPage (st : Settings) (l : List (Tweet × ActEnv)) (s : LoopState) :
    LoopState × List Event :=
  match l with
  | [] => (s, [])
  | (t, e) :: rest =>
    let p1 := processTweet st e t s
    let p2 := processPage st rest p1.1
    (p2.1, p1.2 ++ p2.2)

/-- What one `results.next()` fetch attempt does, supplied by the
environment: a further truthy page, a falsy result ending the while loop,
a `TooManyRequests` signal, or any other exception. -/
inductive FetchRes where
  | page (p : List (Tweet × ActEnv))
  | exhausted
  | rate
  | err

/-- The `while results` pagination loop of `gather_for_query` (source lines
313 to 376): process the current page, sleep 2 to 5 seconds, fetch; on
rate limit sleep 60 to 120 seconds and loop again with the same page handle;
on any other fetch error abort this query; on a falsy page stop.  The fetch
trace is finite, which bounds the recursion; an empty trace also stops. -/
def gatherLoop (st : Settings) (p : List (Tweet × ActEnv)) :
    List FetchRes → LoopState → LoopState × List Event
  | [], s =>
    let p1 := processPage st p s
    (p1.1, p1.2)
  | f :: rest, s =>
    let p1 := processPage st p s
    match f with
    | .page p2 =>
      let p3 := gatherLoop st p2 rest p1.1
      (p3.1, p1.2 ++ [Event.pageDelay] ++ p3.2)
    | .exhausted => (p1.1, p1.2 ++ [Event.pageDelay])
    | .rate =>
      let p3 := gatherLoop st p rest p1.1
      (p3.1, p1.2 ++ [Event.pageDelay, Event.rateBackoff] ++ p3.2)
    | .err => (p1.1, p1.2 ++ [Event.pageDelay, Event.pagAbort])

/-- One query's worth of external search behaviour: the initial
`search_tweet` result (or its failure) and the subsequent fetch trace. -/
inductive SearchRes where
  | ok (p : List (Tweet × ActEnv)) (fetches : List FetchRes)
  | fail

/-- Source `gather_for_query`: an initial search error returns immediately
(no state change); otherwise the pagination loop runs. -/
def gather_for_query (st : Settings) (sr : SearchRes) (s : LoopState) :
    LoopState × List Event :=
  match sr with
  | .fail => (s, [])
  | .ok p fetches => gatherLoop st p fetches s

/-- The `for q in queries` loop of `run_once`: queries processed in order,
state threaded through, each query's outcome unaffected by earlier aborts. -/
def runQueries (st : Settings) (qs : List SearchRes) (s : LoopState) :
    LoopState × List Event :=
  match qs with
  | [] => (s, [])
  | q :: rest =>
    let p1 := gather_for_query st q s
    let p2 := runQueries st rest p1.1
    (p2.1, p1.2 ++ p2.2)

/-- Session gating at the head of `run_once`
(`if st.sessions_enabled and not within_blocks(...)`): the pass proceeds
unless sessions are enabled and the instant is outside the blocks. -/
def sessionGateAllows (st : Settings) (t : Nat) : Bool :=
  !(st.sessions_enabled && !within_blocks t st.session_blocks st.night_off)

/-- Loading the seen file at run start (`set(json.load(f))`): a missing or
unparsable file is `none` and yields the empty set. -/
def loadSeen (file : Option (List String)) : Finset String :=
  match file with
  | none => ∅
  | some l => l.toFinset

/-- Writing the seen file at run end (`json.dump(list(seen_ids), f)`): the
set is serialised as a list of its elements; python's iteration order over a
set is arbitrary, modelled here by one concrete enumeration (sorted), with
order-irrelevance proved separately. -/
def saveSeen (s : Finset String) : List String := s.sort (· ≤ ·)

/-- Observation: whether a micro-break pause occurs in an event list. -/
def hasBreak (evs : List Event) : Bool :=
  evs.any fun e => match e with
    | .microBreak _ _ => true
    | _ => false

/-- Observation: number of attempted actions (like or follow dispatches,
whatever their outcome) in an event list. -/
def attemptsIn (evs : List Event) : Nat :=
  evs.countP fun e => match e with
    | .likeAttempt _ => true
    | .followAttempt _ => true
    | _ => false

/-- Observation: the run's cumulative successful-action total, the sum the
micro-break test reads from the `counts` dict. -/
def totalSucc (s : LoopState) : Nat := s.likes + s.follows

/-- Whether the loop head accepts candidate `t` in state `s` (truthy fresh
id and filter checks 2 to 7 all pass). -/
def acceptedBy (st : Settings) (t : Tweet) (s : LoopState) : Bool :=
  match tidOf t with
  | none => false
  | some tid => tid ∉ s.seen && passesFilters st t

/-- Example author inside the follower bounds used by the concrete witnesses. -/
def exAuthor : Author where
  followers_count := .vInt 500
  followers := .vNone
  id := "u1"
  id_str := ""

/-- Example candidate that clears every filter of `exSettings`. -/
def exTweet : Tweet where
  id := some "t1"
  full_text := some "hello world"
  text := ""
  lang := some "en"
  created_at := .absent
  user := some exAuthor

/-- Example settings: bounds [100, 1000], language `en`, caps 2 and 3,
micro-break threshold 1, sessions disabled. -/
def exSettings : Settings where
  min_followers := 100
  max_followers := 1000
  languages := ["en"]
  max_age_hours := 24
  exclude_keywords := ["spam"]
  dry_run := false
  do_like := true
  do_follow := true
  like_per_day := 2
  follow_per_day := 3
  like_interval := (20, 40)
  follow_interval := (60, 150)
  micro_break_after := 1
  micro_break_seconds := (120, 300)
  sessions_enabled := false
  session_blocks := []
  night_off := none

/-- Example environment in which every external call succeeds. -/
def exEnvOk : ActEnv where
  likeFn := true
  likeRes := .ok
  followFn := true
  followRes := .ok

/-- Example environment in which every external call raises a generic error. -/
def exEnvErr : ActEnv where
  likeFn := true
  likeRes := .err
  followFn := true
  followRes := .err

/-- Claim C2: a candidate reaching the author-followers check passes iff the
resolved followers count lies within the inclusive bounds, and passes
outright when the count does not resolve to an integer (fail-open); at the
call site, a candidate that cleared checks 2 to 6 and has an author record
stands or falls exactly with `ok_author`. -/
theorem followers_check_bounds :
    (∀ (u : Author) (lo hi n : Int), resolveFollowers u = some n →
      (ok_author u lo hi = true ↔ lo ≤ n ∧ n ≤ hi)) ∧
    (∀ (u : Author) (lo hi : Int), resolveFollowers u = none →
      ok_author u lo hi = true) ∧
    (∀ (st : Settings) (t : Tweet) (u : Author), t.user = some u →
      (candText t = "" || is_rt_text (candText t) || is_reply_text (candText t)) = false →
      ok_keywords (candText t) st.exclude_keywords = true →
      ok_lang t.lang st.languages = true →
      ok_age t.created_at st.max_age_hours = true →
      passesFilters st t = ok_author u st.min_followers st.max_followers) := by
  refine ⟨?_, ?_, ?_⟩
  · intro u lo hi n h
    simp [ok_author, h]
  · intro u lo hi h
    simp [ok_author, h]
  · intro st t u hu h2 h3 h4 h5
    simp [passesFilters, hu, h2, h3, h4, h5]

/-- Witness for C2 at follower count 500 against bounds [100, 1000]. -/
theorem followers_check_bounds_witness :
    ok_author exAuthor 100 1000 = true ∧
    passesFilters exSettings exTweet = ok_author exAuthor 100 1000 :=
  ⟨(followers_check_bounds.1 exAuthor 100 1000 500 rfl).mpr (by decide),
   followers_check_bounds.2.2 exSettings exTweet exAuthor rfl (by decide) (by decide)
     (by decide) (by decide)⟩

/-- Claim C5: any instant inside the configured night-off window makes
`within_blocks` return false, whatever the session blocks are — in
particular even when the instant is also inside one of them. -/
theorem night_off_precedence (t : Nat) (blocks : List (Nat × Nat)) (w : Nat × Nat)
    (h : insideWindow w t = true) :
    within_blocks t blocks (some w) = false := by
  simp [within_blocks, h]

/-- Witness for C5: 02:00 lies inside night-off 23:30 to 06:00 and inside
the session block 01:00 to 03:00, yet the gate refuses. -/
theorem night_off_precedence_witness :
    insideWindow (hm 23 30, hm 6 0) (hm 2 0) = true ∧
    insideWindow (hm 1 0, hm 3 0) (hm 2 0) = true ∧
    within_blocks (hm 2 0) [(hm 1 0, hm 3 0)] (some (hm 23 30, hm 6 0)) = false :=
  ⟨by decide, by decide,
   night_off_precedence (hm 2 0) [(hm 1 0, hm 3 0)] (hm 23 30, hm 6 0) (by decide)⟩

/-- Claim C6: the wraparound session block 23:30 to 06:00 (no night-off)
contains 23:45 and 02:00 but not 12:00. -/
theorem wraparound_block_examples :
    within_blocks (hm 23 45) [(hm 23 30, hm 6 0)] none = true ∧
    within_blocks (hm 2 0) [(hm 23 30, hm 6 0)] none = true ∧
    within_blocks (hm 12 0) [(hm 23 30, hm 6 0)] none = false := by
  decide

/-- Claim C8: persisting the seen set and loading it back yields the same
set; loading is insensitive to the serialisation order; a missing or
unparsable file loads as the empty set. -/
theorem seen_roundtrip :
    (∀ s : Finset String, loadSeen (some (saveSeen s)) = s) ∧
    (∀ l1 l2 : List String, l1.toFinset = l2.toFinset →
      loadSeen (some l1) = loadSeen (some l2)) ∧
    loadSeen none = ∅ := by
  refine ⟨?_, ?_, rfl⟩
  · intro s
    simp [loadSeen, saveSeen, Finset.sort_toFinset]
  · intro l1 l2 h
    simp [loadSeen, h]

/-- Witness for C8 on the three-element set written in two different orders. -/
theorem seen_roundtrip_witness :
    (["a", "b", "c"] : List String).toFinset = (["c", "a", "b"] : List String).toFinset ∧
    loadSeen (some ["a", "b", "c"]) = loadSeen (some ["c", "a", "b"]) :=
  ⟨by decide, seen_roundtrip.2.1 ["a", "b", "c"] ["c", "a", "b"] (by decide)⟩

/-- Claim C9: with the sessions flag off, the gating conjunction at the head
of `run_once` short-circuits, so the pass proceeds at every instant for
every block list and night-off configuration. -/
theorem sessions_disabled_always_proceeds (st : Settings)
    (h : st.sessions_enabled = false) :
    ∀ t : Nat, sessionGateAllows st t = true := by
  intro t
  simp [sessionGateAllows, h]

/-- Example settings with the sessions flag off but a night-off window and a
session block configured, exercising the short-circuit of the gate. -/
def exSettingsGate : Settings :=
  { exSettings with night_off := some (hm 23 30, hm 6 0), session_blocks := [(hm 9 0, hm 12 0)] }

/-- Witness for C9: sessions disabled lets 02:00 through even though it sits
inside the configured night-off window and outside every session block. -/
theorem sessions_disabled_always_proceeds_witness :
    exSettingsGate.sessions_enabled = false ∧
    within_blocks (hm 2 0) exSettingsGate.session_blocks exSettingsGate.night_off = false ∧
    sessionGateAllows exSettingsGate (hm 2 0) = true :=
  ⟨rfl, by decide, sessions_disabled_always_proceeds exSettingsGate rfl (hm 2 0)⟩

/-- Claim C3: a candidate clearing checks 2 to 7 has its identifier inserted
into the seen set whatever the action environment and quota state are (so
also when the action fails or is skipped for quota) — the result's seen set
is exactly `insert tid`, independent of every action outcome; and a
candidate whose identifier is already seen yields the unchanged state and
only a skip event, independent of all of its other fields, so no later
check runs and it is never re-evaluated within the run. -/
theorem seen_marked_on_accept_and_skip :
    (∀ (st : Settings) (env : ActEnv) (t : Tweet) (s : LoopState) (tid : String),
      tidOf t = some tid → tid ∉ s.seen → passesFilters st t = true →
      (processTweet st env t s).1.seen = insert tid s.seen) ∧
    (∀ (st : Settings) (env : ActEnv) (t : Tweet) (s : LoopState) (tid : String),
      tidOf t = some tid → tid ∈ s.seen →
      processTweet st env t s = (s, [Event.cand t.id Decision.seenSkip])) := by
  constructor
  · intro st env t s tid h1 h2 h3
    simp only [processTweet, h1, h2, h3]
    repeat' split
    all_goals simp_all
  · intro st env t s tid h1 h2
    simp [processTweet, h1, h2]

/-- Witness for C3: the accepted example candidate is inserted even though
both of its actions error out, and once seen it is skipped untouched. -/
theorem seen_marked_on_accept_and_skip_witness :
    tidOf exTweet = some "t1" ∧
    passesFilters exSettings exTweet = true ∧
    (processTweet exSettings exEnvErr exTweet ⟨∅, 0, 0⟩).1.seen =
      insert "t1" (∅ : Finset String) ∧
    processTweet exSettings exEnvErr exTweet ⟨{"t1"}, 0, 0⟩ =
      (⟨{"t1"}, 0, 0⟩, [Event.cand (some "t1") Decision.seenSkip]) :=
  ⟨rfl, by decide,
   seen_marked_on_accept_and_skip.1 exSettings exEnvErr exTweet ⟨∅, 0, 0⟩ "t1" rfl
     (by decide) (by decide),
   seen_marked_on_accept_and_skip.2 exSettings exEnvErr exTweet ⟨{"t1"}, 0, 0⟩ "t1" rfl
     (by decide)⟩

/-- Counterexample to claim C1 as stated: a run with `micro_break_after = 1`
in which two actions are attempted (both erroring), so by the claim a pause
should follow the first and the second attempted action; the run emits no
micro-break at all, because the compared total is the successful-action
count, which stays at zero. -/
theorem micro_break_attempts_counterexample :
    exSettings.micro_break_after = 1 ∧
    attemptsIn (runQueries exSettings [SearchRes.ok [(exTweet, exEnvErr)] []] ⟨∅, 0, 0⟩).2 = 2 ∧
    hasBreak (runQueries exSettings [SearchRes.ok [(exTweet, exEnvErr)] []] ⟨∅, 0, 0⟩).2 = false :=
  ⟨rfl, by decide, by decide⟩

/-- Claim C1 (amended): after each accepted candidate the loop compares the
cumulative total of successful actions — the sum of the two quota counters —
against `micro_break_after`, and pauses for a duration drawn from
`micro_break_seconds` exactly when the threshold is positive and that total
is a positive multiple of it; a zero threshold disables micro-breaks. -/
theorem micro_break_success_multiples :
    ∀ (st : Settings) (env : ActEnv) (t : Tweet) (s : LoopState),
      hasBreak (processTweet st env t s).2 =
        (acceptedBy st t s && decide (0 < st.micro_break_after)
          && decide (0 < totalSucc (processTweet st env t s).1)
          && decide ((totalSucc (processTweet st env t s).1 : Int) % st.micro_break_after = 0)) := by
  intro st env t s
  unfold processTweet acceptedBy
  cases h : tidOf t
  · simp [hasBreak]
  · simp only []
    repeat' split
    all_goals simp_all [hasBreak, totalSucc]

/-- Cap preservation over one candidate: a counter at or below its cap stays
there, because an attempt needs strictly positive remaining quota. -/
theorem processTweet_counts_le (st : Settings) (env : ActEnv) (t : Tweet) (s : LoopState)
    (hl : (s.likes : Int) ≤ st.like_per_day) (hf : (s.follows : Int) ≤ st.follow_per_day) :
    ((processTweet st env t s).1.likes : Int) ≤ st.like_per_day ∧
    ((processTweet st env t s).1.follows : Int) ≤ st.follow_per_day := by
  unfold processTweet
  cases h : tidOf t
  · simp_all
  · simp only []
    split_ifs <;> simp_all <;> omega

/-- Cap preservation over one page. -/
theorem processPage_counts_le (st : Settings) (l : List (Tweet × ActEnv)) (s : LoopState)
    (hl : (s.likes : Int) ≤ st.like_per_day) (hf : (s.follows : Int) ≤ st.follow_per_day) :
    ((processPage st l s).1.likes : Int) ≤ st.like_per_day ∧
    ((processPage st l s).1.follows : Int) ≤ st.follow_per_day := by
  induction l generalizing s with
  | nil => exact ⟨hl, hf⟩
  | cons te rest ih =>
    have h := processTweet_counts_le st te.2 te.1 s hl hf
    simpa [processPage] using ih (processTweet st te.2 te.1 s).1 h.1 h.2

/-- Cap preservation over a whole pagination loop. -/
theorem gatherLoop_counts_le (st : Settings) (fetches : List FetchRes)
    (p : List (Tweet × ActEnv)) (s : LoopState)
    (hl : (s.likes : Int) ≤ st.like_per_day) (hf : (s.follows : Int) ≤ st.follow_per_day) :
    ((gatherLoop st p fetches s).1.likes : Int) ≤ st.like_per_day ∧
    ((gatherLoop st p fetches s).1.follows : Int) ≤ st.follow_per_day := by
  induction fetches generalizing p s with
  | nil =>
    have h := processPage_counts_le st p s hl hf
    simpa [gatherLoop] using h
  | cons f rest ih =>
    have h := processPage_counts_le st p s hl hf
    cases f with
    | page p2 => simpa [gatherLoop] using ih p2 (processPage st p s).1 h.1 h.2
    | exhausted => simpa [gatherLoop] using h
    | rate => simpa [gatherLoop] using ih p (processPage st p s).1 h.1 h.2
    | err => simpa [gatherLoop] using h

/-- Cap preservation over the query loop of a pass. -/
theorem runQueries_counts_le (st : Settings) (qs : List SearchRes) (s : LoopState)
    (hl : (s.likes : Int) ≤ st.like_per_day) (hf : (s.follows : Int) ≤ st.follow_per_day) :
    ((runQueries st qs s).1.likes : Int) ≤ st.like_per_day ∧
    ((runQueries st qs s).1.follows : Int) ≤ st.follow_per_day := by
  induction qs generalizing s with
  | nil => exact ⟨hl, hf⟩
  | cons q rest ih =>
    cases q with
    | fail => simpa [runQueries, gather_for_query] using ih s hl hf
    | ok p fetches =>
      have h := gatherLoop_counts_le st fetches p s hl hf
      simpa [runQueries, gather_for_query] using
        ih (gatherLoop st p fetches s).1 h.1 h.2

set_option maxHeartbeats 1000000 in
/-- Claim C4: a quota counter changes exactly when its kind's attempt
reports `ok` (so never on dry-run, rate-limited, unavailable or error
outcomes, which keep the counter); an attempt of a kind is dispatched only
with the kind enabled and its remaining quota `cap − count` strictly
positive; over a whole pass started from zero counters, each counter stays
at or below its (non-negative) cap; and a candidate accepted with the like
quota exhausted is still dispatched for follow. -/
theorem quota_discipline :
    (∀ (st : Settings) (env : ActEnv) (t : Tweet) (s : LoopState),
      (Event.likeAttempt Outcome.ok ∈ (processTweet st env t s).2 →
        (processTweet st env t s).1.likes = s.likes + 1) ∧
      (Event.likeAttempt Outcome.ok ∉ (processTweet st env t s).2 →
        (processTweet st env t s).1.likes = s.likes) ∧
      (Event.followAttempt Outcome.ok ∈ (processTweet st env t s).2 →
        (processTweet st env t s).1.follows = s.follows + 1) ∧
      (Event.followAttempt Outcome.ok ∉ (processTweet st env t s).2 →
        (processTweet st env t s).1.follows = s.follows)) ∧
    (∀ (st : Settings) (env : ActEnv) (t : Tweet) (s : LoopState) (o : Outcome),
      (Event.likeAttempt o ∈ (processTweet st env t s).2 →
        st.do_like = true ∧ (s.likes : Int) < st.like_per_day) ∧
      (Event.followAttempt o ∈ (processTweet st env t s).2 →
        st.do_follow = true ∧ (s.follows : Int) < st.follow_per_day)) ∧
    (∀ (st : Settings) (qs : List SearchRes) (seen0 : Finset String),
      0 ≤ st.like_per_day → 0 ≤ st.follow_per_day →
      ((runQueries st qs ⟨seen0, 0, 0⟩).1.likes : Int) ≤ st.like_per_day ∧
      ((runQueries st qs ⟨seen0, 0, 0⟩).1.follows : Int) ≤ st.follow_per_day) ∧
    (∀ (st : Settings) (env : ActEnv) (t : Tweet) (s : LoopState) (tid : String),
      tidOf t = some tid → tid ∉ s.seen → passesFilters st t = true →
      st.like_per_day ≤ (s.likes : Int) →
      st.do_follow = true → (s.follows : Int) < st.follow_per_day → uidOf t ≠ "" →
      Event.followAttempt (act st.dry_run env.followFn env.followRes) ∈ (processTweet st env t s).2 ∧
      (∀ o : Outcome, Event.likeAttempt o ∉ (processTweet st env t s).2)) := by
  refine ⟨?_, ?_, ?_, ?_⟩
  · intro st env t s
    unfold processTweet
    cases h : tidOf t
    · simp_all
    · simp only []
      split_ifs <;> simp_all
      all_goals first
        | exact Ne.symm (by assumption)
        | (constructor <;> exact Ne.symm (by assumption))
  · intro st env t s o
    unfold processTweet
    cases h : tidOf t
    · simp_all
    · simp only []
      split_ifs <;> simp_all
  · intro st qs seen0 hl hf
    exact runQueries_counts_le st qs ⟨seen0, 0, 0⟩ (by simpa using hl) (by simpa using hf)
  · intro st env t s tid h1 h2 h3 h4 h5 h6 h7
    unfold processTweet
    simp only [h1]
    split_ifs <;> simp_all <;> omega

/-- Witness for C4: the example pass keeps the like counter within its cap
of 2, and with the like quota exhausted (counter already at 2) the example
candidate is still dispatched for follow while no like is attempted. -/
theorem quota_discipline_witness :
    ((runQueries exSettings [SearchRes.ok [(exTweet, exEnvOk)] []] ⟨∅, 0, 0⟩).1.likes : Int) ≤
      exSettings.like_per_day ∧
    Event.followAttempt Outcome.ok ∈ (processTweet exSettings exEnvOk exTweet ⟨∅, 2, 0⟩).2 ∧
    Event.likeAttempt Outcome.ok ∉ (processTweet exSettings exEnvOk exTweet ⟨∅, 2, 0⟩).2 :=
  ⟨(quota_discipline.2.2.1 exSettings [SearchRes.ok [(exTweet, exEnvOk)] []] ∅
      (by decide) (by decide)).1,
   (quota_discipline.2.2.2 exSettings exEnvOk exTweet ⟨∅, 2, 0⟩ "t1" rfl (by decide) (by decide)
      (by decide) rfl (by decide) (by decide)).1,
   (quota_discipline.2.2.2 exSettings exEnvOk exTweet ⟨∅, 2, 0⟩ "t1" rfl (by decide) (by decide)
      (by decide) rfl (by decide) (by decide)).2 Outcome.ok⟩

/-- Seen-set monotonicity over one candidate: processing never removes ids. -/
theorem processTweet_seen_mono (st : Settings) (env : ActEnv) (t : Tweet) (s : LoopState) :
    s.seen ⊆ (processTweet st env t s).1.seen := by
  unfold processTweet
  cases h : tidOf t
  · simp
  · simp only []
    split_ifs <;> simp_all [Finset.subset_insert]

/-- Seen-set monotonicity over one page. -/
theorem processPage_seen_mono (st : Settings) (l : List (Tweet × ActEnv)) (s : LoopState) :
    s.seen ⊆ (processPage st l s).1.seen := by
  induction l generalizing s with
  | nil => simp [processPage]
  | cons te rest ih =>
    exact fun x hx => by
      simpa [processPage] using ih (processTweet st te.2 te.1 s).1
        (processTweet_seen_mono st te.2 te.1 s hx)

/-- Claim C7: a rate-limit signal from `results.next()` emits the 60 to 120
second backoff and loops again with the same page handle and the remaining
trace (cursor not advanced, query not aborted); any other fetch error ends
this query's pagination after the current page, with everything beyond the
error irrelevant; and the query loop of a pass always proceeds to the
remaining queries from the threaded state, whatever happened in the
current query. -/
theorem backoff_retry_and_abort :
    (∀ (st : Settings) (p : List (Tweet × ActEnv)) (rest : List FetchRes) (s : LoopState),
      gatherLoop st p (FetchRes.rate :: rest) s =
        ((gatherLoop st p rest (processPage st p s).1).1,
         (processPage st p s).2 ++ [Event.pageDelay, Event.rateBackoff] ++
           (gatherLoop st p rest (processPage st p s).1).2)) ∧
    (∀ (st : Settings) (p : List (Tweet × ActEnv)) (rest rest2 : List FetchRes) (s : LoopState),
      gatherLoop st p (FetchRes.err :: rest) s = gatherLoop st p (FetchRes.err :: rest2) s) ∧
    (∀ (st : Settings) (p : List (Tweet × ActEnv)) (rest : List FetchRes) (s : LoopState),
      gatherLoop st p (FetchRes.err :: rest) s =
        ((processPage st p s).1, (processPage st p s).2 ++ [Event.pageDelay, Event.pagAbort])) ∧
    (∀ (st : Settings) (q : SearchRes) (qs : List SearchRes) (s : LoopState),
      runQueries st (q :: qs) s =
        ((runQueries st qs (gather_for_query st q s).1).1,
         (gather_for_query st q s).2 ++ (runQueries st qs (gather_for_query st q s).1).2)) := by
  refine ⟨?_, ?_, ?_, ?_⟩
  · intro st p rest s
    simp [gatherLoop]
  · intro st p rest rest2 s
    simp [gatherLoop]
  · intro st p rest s
    simp [gatherLoop]
  · intro st q qs s
    simp [runQueries]

/-- Example candidate rejected by the language filter of `exSettings`. -/
def exTweetFr : Tweet :=
  { exTweet with id := some "t2", lang := some "fr" }

/-- Claim C10: after a rate-limit backoff the loop runs the whole current
page through the candidate pipeline again before the retried fetch is
consumed; the seen set only grows, an accepted candidate's id is in it
afterwards, a candidate whose id is seen is skipped with no state change,
and a fresh candidate failing the filters is re-evaluated to the same
rejection (not seen-skipped). -/
theorem rate_limit_repage :
    (∀ (st : Settings) (p : List (Tweet × ActEnv)) (rest : List FetchRes) (s : LoopState),
      (gatherLoop st p (FetchRes.rate :: rest) s).2 =
        (processPage st p s).2 ++ [Event.pageDelay, Event.rateBackoff] ++
          (gatherLoop st p rest (processPage st p s).1).2 ∧
      ∃ tail : List Event,
        (gatherLoop st p rest (processPage st p s).1).2 =
          (processPage st p (processPage st p s).1).2 ++ tail) ∧
    (∀ (st : Settings) (l : List (Tweet × ActEnv)) (s : LoopState),
      s.seen ⊆ (processPage st l s).1.seen) ∧
    (∀ (st : Settings) (env : ActEnv) (t : Tweet) (s : LoopState) (tid : String),
      tidOf t = some tid → tid ∉ s.seen → passesFilters st t = true →
      tid ∈ (processTweet st env t s).1.seen) ∧
    (∀ (st : Settings) (env : ActEnv) (t : Tweet) (s : LoopState) (tid : String),
      tidOf t = some tid → tid ∈ s.seen →
      processTweet st env t s = (s, [Event.cand t.id Decision.seenSkip])) ∧
    (∀ (st : Settings) (env : ActEnv) (t : Tweet) (s : LoopState) (tid : String),
      tidOf t = some tid → tid ∉ s.seen → passesFilters st t = false →
      processTweet st env t s = (s, [Event.cand t.id Decision.rejected])) := by
  refine ⟨?_, processPage_seen_mono, ?_, ?_, ?_⟩
  · intro st p rest s
    constructor
    · simp [gatherLoop]
    · cases rest with
      | nil => exact ⟨[], by simp [gatherLoop]⟩
      | cons f rest2 =>
        cases f with
        | page p2 =>
          exact ⟨[Event.pageDelay] ++
            (gatherLoop st p2 rest2 (processPage st p (processPage st p s).1).1).2,
            by simp [gatherLoop]⟩
        | exhausted => exact ⟨[Event.pageDelay], by simp [gatherLoop]⟩
        | rate =>
          exact ⟨[Event.pageDelay, Event.rateBackoff] ++
            (gatherLoop st p rest2 (processPage st p (processPage st p s).1).1).2,
            by simp [gatherLoop]⟩
        | err => exact ⟨[Event.pageDelay, Event.pagAbort], by simp [gatherLoop]⟩
  · intro st env t s tid h1 h2 h3
    unfold processTweet
    simp only [h1]
    split_ifs <;> simp_all
  · intro st env t s tid h1 h2
    simp [processTweet, h1, h2]
  · intro st env t s tid h1 h2 h3
    simp [processTweet, h1, h2, h3]

/-- Witness for C10: on the second iteration the accepted example candidate
is skipped through the seen set, while the language-rejected one is run
through the filters again and rejected again. -/
theorem rate_limit_repage_witness :
    "t1" ∈ (processTweet exSettings exEnvErr exTweet ⟨∅, 0, 0⟩).1.seen ∧
    processTweet exSettings exEnvErr exTweet ⟨{"t1"}, 1, 1⟩ =
      (⟨{"t1"}, 1, 1⟩, [Event.cand (some "t1") Decision.seenSkip]) ∧
    processTweet exSettings exEnvErr exTweetFr ⟨{"t1"}, 1, 1⟩ =
      (⟨{"t1"}, 1, 1⟩, [Event.cand (some "t2") Decision.rejected]) :=
  ⟨rate_limit_repage.2.2.1 exSettings exEnvErr exTweet ⟨∅, 0, 0⟩ "t1" rfl (by decide) (by decide),
   rate_limit_repage.2.2.2.1 exSettings exEnvErr exTweet ⟨{"t1"}, 1, 1⟩ "t1" rfl (by decide),
   rate_limit_repage.2.2.2.2 exSettings exEnvErr exTweetFr ⟨{"t1"}, 1, 1⟩ "t2" rfl (by decide)
     (by decide)⟩

end SubHunter
